import Mathlib

/-!
# telemetrylib: shutdown aggregation and span-context log enrichment

A shallow embedding of `otel.go` (`SetupOTelSDK`, `newMeterProvider`,
`newTracerProvider`) and `logger.go` (`spanContextLogHandler.Handle`,
`handlerWithSpanContext`, `replacer`, `InitLogger`).

Go values are modelled by plain data, side effects by explicit state passing,
and a Go panic by `Except.error`.  The collaborating libraries (`errors`,
`log/slog`, `go.opentelemetry.io/otel/...`) are outside the repository; the few
operations the code calls on them are modelled after their documented
behaviour, every fallible or effectful library call being a parameter.
-/

namespace Telemetrylib

/-! ## Go errors and `errors.Join` -/

/-- Go error values: either an error without further structure (identified by its
message), or the `*joinError` built by `errors.Join`, which holds the joined
errors in order. -/
inductive GoError where
  | leaf (msg : String)
  | joinError (errs : List GoError)
deriving Repr

/-- The Go type `error`: `none` is the `nil` error. -/
abbrev error := Option GoError

mutual
/-- Structural equality of error values. -/
def GoError.beq : GoError → GoError → Bool
  | .leaf a, .leaf b => a == b
  | .joinError xs, .joinError ys => GoError.beqList xs ys
  | _, _ => false
/-- Structural equality of lists of error values. -/
def GoError.beqList : List GoError → List GoError → Bool
  | [], [] => true
  | x :: xs, y :: ys => GoError.beq x y && GoError.beqList xs ys
  | _, _ => false
end

mutual
/-- The standard library's `errors.Is(err, target)` on the modelled errors:
`err` is `target`, or `err` is a join one of whose members, searched depth
first, satisfies `errors.Is(member, target)`. -/
def GoError.Is (target : GoError) : GoError → Bool
  | .leaf m => GoError.beq (.leaf m) target
  | .joinError es => GoError.beq (.joinError es) target || GoError.IsAny target es
/-- The loop of `errors.Is` over the members of a join. -/
def GoError.IsAny (target : GoError) : List GoError → Bool
  | [] => false
  | e :: es => GoError.Is target e || GoError.IsAny target es
end

/-- An `error` wraps `target` when it is non-nil and `errors.Is` finds `target`
in it. -/
def wraps (err : error) (target : GoError) : Bool :=
  match err with
  | none => false
  | some e => GoError.Is target e

/-- The standard library's `errors.Join(errs...)`: nil values are discarded; the
result is nil when every argument is nil, and otherwise a join error holding the
non-nil arguments in argument order. -/
def Join (errs : List error) : error :=
  let kept := errs.filterMap id
  if kept.length = 0 then none else some (GoError.joinError kept)

/-! ## Contexts and span contexts -/

/-- A 16-byte trace id, read as one big-endian number. -/
abbrev TraceID := Fin (2 ^ 128)

/-- An 8-byte span id, read as one big-endian number. -/
abbrev SpanID := Fin (2 ^ 64)

/-- The one-byte trace flags. -/
abbrev TraceFlags := Fin 256

/-- The flag bit `trace.FlagsSampled`. -/
def FlagsSampled : Nat := 1

/-- The method `TraceFlags.IsSampled`: the sampled bit is set. -/
def TraceFlags.IsSampled (tf : TraceFlags) : Bool :=
  tf.val &&& FlagsSampled == FlagsSampled

/-- The method `TraceID.IsValid`: the id is not all zero bytes. -/
def TraceID.IsValid (t : TraceID) : Bool := t != 0

/-- The method `SpanID.IsValid`: the id is not all zero bytes. -/
def SpanID.IsValid (s : SpanID) : Bool := s != 0

/-- The OpenTelemetry `trace.SpanContext`. -/
structure SpanContext where
  traceID : TraceID
  spanID : SpanID
  traceFlags : TraceFlags
  traceState : String
  remote : Bool
deriving DecidableEq, Repr

/-- The zero value `trace.SpanContext{}`. -/
def SpanContext.zero : SpanContext :=
  { traceID := 0, spanID := 0, traceFlags := 0, traceState := "", remote := false }

/-- The method `SpanContext.IsValid`: both the trace id and the span id are
non-zero. -/
def SpanContext.IsValid (sc : SpanContext) : Bool :=
  TraceID.IsValid sc.traceID && SpanID.IsValid sc.spanID

/-- A Go `context.Context`, as far as this code looks at it: an identity and the
span it may carry. -/
structure Context where
  id : Nat
  span : Option SpanContext
deriving DecidableEq, Repr

/-- The library's `trace.SpanContextFromContext`: the span context of the span
stored in the context, and the zero span context when the context carries no
span. -/
def SpanContextFromContext (ctx : Context) : SpanContext :=
  match ctx.span with
  | some sc => sc
  | none => SpanContext.zero

/-! ## otel.go: the cleanup registry and `SetupOTelSDK` -/

/-- A registered cleanup callback `func(context.Context) error`: a name that
identifies it and its behaviour on the outside state `W`. -/
structure Cleanup (W : Type) where
  name : String
  run : Context → W → error × W

/-- One observed call of a cleanup callback: which one, with which context, and
what it returned. -/
structure CleanupCall where
  fn : String
  ctx : Context
  result : error

/-- The text-map propagators that can be installed. -/
inductive Propagator where
  | autoprop
deriving DecidableEq, Repr

/-- A `*metric.MeterProvider`: built over the Prometheus reader. -/
structure MeterProvider where
  reader : String
deriving DecidableEq, Repr

/-- A `*trace.TracerProvider`: its sampler and its span processor. -/
structure TracerProvider where
  sampler : String
  spanProcessor : String
deriving DecidableEq, Repr

/-- The process-wide OpenTelemetry registrations. -/
structure Globals where
  textMapPropagator : Option Propagator
  meterProvider : Option MeterProvider
  tracerProvider : Option TracerProvider
deriving DecidableEq, Repr

/-- The library calls of `otel.go` that can fail or act on the outside state
`W`: each returns its error result and the next outside state. -/
structure Ext (W : Type) where
  /-- The call `prometheus.New()`. -/
  prometheusNew : W → error × W
  /-- The call `stdouttrace.New(stdouttrace.WithPrettyPrint())`. -/
  stdouttraceNew : W → error × W
  /-- The method `(*metric.MeterProvider).Shutdown`. -/
  meterProviderShutdown : Context → W → error × W
  /-- The method `(*trace.TracerProvider).Shutdown`. -/
  tracerProviderShutdown : Context → W → error × W
  /-- The call `runtime.Start(runtime.WithMinimumReadMemStatsInterval(d))`, `d` in
  nanoseconds. -/
  runtimeStart : Nat → W → error × W

/-- The state a call of `SetupOTelSDK` works on: the captured variable
`shutdownFuncs`, the outside state, the global registrations, and the cleanup
calls made so far. -/
structure State (W : Type) where
  shutdownFuncs : List (Cleanup W)
  world : W
  globals : Globals
  calls : List CleanupCall

/-- The loop `for _, fn := range shutdownFuncs { err = errors.Join(err, fn(ctx)) }`
of the shutdown closure, started with the local `err`. -/
def shutdownLoop {W : Type} (ctx : Context) :
    List (Cleanup W) → error → W → List CleanupCall → error × W × List CleanupCall
  | [], err, w, calls => (err, w, calls)
  | fn :: rest, err, w, calls =>
      let r := fn.run ctx w
      shutdownLoop ctx rest (Join [err, r.1]) r.2 (calls ++ [⟨fn.name, ctx, r.1⟩])

/-- The closure `shutdown` of `SetupOTelSDK`: runs the loop from a nil `err`, sets
`shutdownFuncs = nil` and returns `err`. -/
def shutdown {W : Type} (ctx : Context) (s : State W) : error × State W :=
  let out := shutdownLoop ctx s.shutdownFuncs none s.world s.calls
  (out.1, { s with shutdownFuncs := [], world := out.2.1, calls := out.2.2 })

/-- The closure `handleErr` of `SetupOTelSDK`, called with the setup context:
`err = errors.Join(inErr, shutdown(ctx))`; returns the new value of `err`. -/
def handleErr {W : Type} (ctx : Context) (inErr : error) (s : State W) : error × State W :=
  let out := shutdown ctx s
  (Join [inErr, out.1], out.2)

/-- The function `newMeterProvider`: `(nil, err)` when `prometheus.New` fails,
otherwise the provider built over the exporter and a nil error. -/
def newMeterProvider {W : Type} (x : Ext W) (w : W) : (Option MeterProvider × error) × W :=
  match x.prometheusNew w with
  | (some err, w1) => ((none, some err), w1)
  | (none, w1) => ((some { reader := "prometheus" }, none), w1)

/-- The function `newTracerProvider`: `(nil, err)` when `stdouttrace.New` fails,
otherwise a provider with the never-sample sampler and a batch span processor
over the exporter, and a nil error. -/
def newTracerProvider {W : Type} (x : Ext W) (w : W) : (Option TracerProvider × error) × W :=
  match x.stdouttraceNew w with
  | (some err, w1) => ((none, some err), w1)
  | (none, w1) =>
      ((some { sampler := "NeverSample", spanProcessor := "BatchSpanProcessor(stdouttrace)" },
        none), w1)

/-- The duration `time.Second`, in nanoseconds. -/
def Second : Nat := 1000000000

/-- A Go function value of type `func(context.Context) error` as returned by
`SetupOTelSDK`: nil, or the shutdown closure over the call's `shutdownFuncs`. -/
inductive FuncValue where
  | nil
  | shutdownClosure
deriving DecidableEq, Repr

/-- What a call of `SetupOTelSDK` leaves: its two results and the state. -/
structure SetupResult (W : Type) where
  shutdown : FuncValue
  err : error
  state : State W

/-- The cleanup registered for the meter provider, `meterProvider.Shutdown`. -/
def meterCleanup {W : Type} (x : Ext W) : Cleanup W :=
  { name := "meterProvider.Shutdown", run := x.meterProviderShutdown }

/-- The cleanup registered for the tracer provider, `tracerProvider.Shutdown`. -/
def tracerCleanup {W : Type} (x : Ext W) : Cleanup W :=
  { name := "tracerProvider.Shutdown", run := x.tracerProviderShutdown }

/-- The function `SetupOTelSDK(ctx)`, run from the global registrations `g` and the
outside state `w`.  The named results `shutdown` and `err` are the fields of the
value returned: a bare `return` returns their current values. -/
def SetupOTelSDK {W : Type} (x : Ext W) (ctx : Context) (g : Globals) (w : W) :
    SetupResult W :=
  -- var shutdownFuncs []func(context.Context) error;  shutdown = func(ctx) error {...}
  let s0 : State W := { shutdownFuncs := [], world := w, globals := g, calls := [] }
  -- otel.SetTextMapPropagator(autoprop.NewTextMapPropagator())
  let s1 : State W :=
    { s0 with globals := { s0.globals with textMapPropagator := some Propagator.autoprop } }
  -- meterProvider, err := newMeterProvider()
  match newMeterProvider x s1.world with
  | ((_, some e), w1) =>
      -- handleErr(err); return
      let h := handleErr ctx (some e) { s1 with world := w1 }
      { shutdown := FuncValue.shutdownClosure, err := h.1, state := h.2 }
  | ((meterProvider, none), w1) =>
      -- shutdownFuncs = append(shutdownFuncs, meterProvider.Shutdown)
      -- otel.SetMeterProvider(meterProvider)
      let s2 : State W :=
        { s1 with
          world := w1
          shutdownFuncs := s1.shutdownFuncs ++ [meterCleanup x]
          globals := { s1.globals with meterProvider := meterProvider } }
      -- tracerProvider, err := newTracerProvider()
      match newTracerProvider x s2.world with
      | ((_, some e), w2) =>
          -- handleErr(err); return
          let h := handleErr ctx (some e) { s2 with world := w2 }
          { shutdown := FuncValue.shutdownClosure, err := h.1, state := h.2 }
      | ((tracerProvider, none), w2) =>
          -- shutdownFuncs = append(shutdownFuncs, tracerProvider.Shutdown)
          -- otel.SetTracerProvider(tracerProvider)
          let s3 : State W :=
            { s2 with
              world := w2
              shutdownFuncs := s2.shutdownFuncs ++ [tracerCleanup x]
              globals := { s2.globals with tracerProvider := tracerProvider } }
          -- err = runtime.Start(runtime.WithMinimumReadMemStatsInterval(time.Second))
          let r := x.runtimeStart Second s3.world
          let s4 : State W := { s3 with world := r.2 }
          -- if err != nil { handleErr(err) }
          let h : error × State W :=
            match r.1 with
            | some e => handleErr ctx (some e) s4
            | none => (none, s4)
          -- return shutdown, nil
          { shutdown := FuncValue.shutdownClosure, err := none, state := h.2 }

/-- Calling a function value returned by `SetupOTelSDK`: calling the nil function
panics, calling the closure runs `shutdown`. -/
def FuncValue.call {W : Type} (f : FuncValue) (ctx : Context) (s : State W) :
    Except String (error × State W) :=
  match f with
  | FuncValue.nil => Except.error "invalid memory address or nil pointer dereference"
  | FuncValue.shutdownClosure => Except.ok (shutdown ctx s)

/-- Sequential invocations of the shutdown closure, one per context of the list:
the errors returned, in order, and the final state. -/
def shutdownSeq {W : Type} : List Context → State W → List error × State W
  | [], s => ([], s)
  | c :: cs, s =>
      let out := shutdown c s
      let next := shutdownSeq cs out.2
      (out.1 :: next.1, next.2)

/-- The calls a single pass over the registry makes from outside state `w`: each
callback once, in registration order, with context `ctx`, each started in the
outside state its predecessor left, whatever that predecessor returned. -/
def runAll {W : Type} (ctx : Context) : List (Cleanup W) → W → List CleanupCall
  | [], _ => []
  | fn :: rest, w => ⟨fn.name, ctx, (fn.run ctx w).1⟩ :: runAll ctx rest (fn.run ctx w).2

/-- The outside state after a single pass over the registry. -/
def worldAfter {W : Type} (ctx : Context) : List (Cleanup W) → W → W
  | [], w => w
  | fn :: rest, w => worldAfter ctx rest (fn.run ctx w).2

/-- The fold `err = errors.Join(err, r)` over a list of results, from `err`. -/
def joinFold (err : error) (results : List error) : error :=
  results.foldl (fun acc r => Join [acc, r]) err

/-! ## logger.go: records, handlers and `replacer` -/

/-- The type `slog.Level`, an integer. -/
abbrev Level := Int

namespace slog

/-- The level `slog.LevelDebug`. -/
def LevelDebug : Level := -4
/-- The level `slog.LevelInfo`. -/
def LevelInfo : Level := 0
/-- The level `slog.LevelWarn`. -/
def LevelWarn : Level := 4
/-- The level `slog.LevelError`. -/
def LevelError : Level := 8

/-- The key `slog.TimeKey` of the built-in time attribute. -/
def TimeKey : String := "time"
/-- The key `slog.LevelKey` of the built-in level attribute. -/
def LevelKey : String := "level"
/-- The key `slog.MessageKey` of the built-in message attribute. -/
def MessageKey : String := "msg"

end slog

/-- Go values of the types that `slog` gives no kind of their own and stores as
they are (kind `Any`): nil, a `slog.Level`, a trace id, a span id, or a value of
some other such type, given by its type name and its text. -/
inductive Dyn where
  | nil
  | level (l : Level)
  | traceID (t : TraceID)
  | spanID (s : SpanID)
  | other (typeName : String) (text : String)
deriving DecidableEq, Repr

/-- The type `slog.Value`, one constructor per kind; a group holds its attributes
as key and value pairs. -/
inductive Value where
  | KindAny (x : Dyn)
  | KindBool (b : Bool)
  | KindDuration (d : Int)
  | KindFloat64 (bits : Nat)
  | KindInt64 (i : Int)
  | KindString (s : String)
  | KindTime (t : Int)
  | KindUint64 (n : Nat)
  | KindGroup (attrs : List (String × Value))
  | KindLogValuer (x : Dyn)
deriving Repr

/-- A Go interface value `any`, as returned by the method `Value.Any`. -/
inductive GoAny where
  | dyn (x : Dyn)
  | bool (b : Bool)
  | duration (d : Int)
  | float64 (bits : Nat)
  | int64 (i : Int)
  | string (s : String)
  | time (t : Int)
  | uint64 (n : Nat)
  | attrs (as : List (String × Value))
deriving Repr

/-- The method `Value.Any`: the value as an `any`. -/
def Value.Any : Value → GoAny
  | Value.KindAny x => GoAny.dyn x
  | Value.KindLogValuer x => GoAny.dyn x
  | Value.KindBool b => GoAny.bool b
  | Value.KindDuration d => GoAny.duration d
  | Value.KindFloat64 f => GoAny.float64 f
  | Value.KindInt64 i => GoAny.int64 i
  | Value.KindString s => GoAny.string s
  | Value.KindTime t => GoAny.time t
  | Value.KindUint64 n => GoAny.uint64 n
  | Value.KindGroup as => GoAny.attrs as

/-- The single-result type assertion `x.(slog.Level)`: the level when the dynamic
type of `x` is `slog.Level`, a panic otherwise. -/
def GoAny.assertLevel : GoAny → Except String Level
  | GoAny.dyn (Dyn.level l) => Except.ok l
  | _ => Except.error "interface conversion: the value is not a slog.Level"

/-- The method `Value.isEmptyGroup`: a group with no attributes. -/
def Value.isEmptyGroup : Value → Bool
  | Value.KindGroup as => as.length == 0
  | _ => false

/-- The type `slog.Attr`. -/
structure Attr where
  Key : String
  Value : Value
deriving Repr

namespace slog

/-- The function `slog.StringValue`. -/
def StringValue (s : String) : Value := Value.KindString s

/-- The function `slog.Bool`. -/
def Bool (key : String) (b : Bool) : Attr := { Key := key, Value := Value.KindBool b }

/-- The function `slog.Any` on a value that `slog.AnyValue` stores as it is. -/
def Any (key : String) (x : Dyn) : Attr := { Key := key, Value := Value.KindAny x }

end slog

/-- The zero value of `slog.Attr`: the empty key with the zero value. -/
def Attr.zero : Attr := { Key := "", Value := Value.KindAny Dyn.nil }

/-- The method `Attr.isEmpty`: the key is empty and the value is the zero value. -/
def Attr.isEmpty (a : Attr) : Bool :=
  a.Key == "" &&
    (match a.Value with
      | Value.KindAny Dyn.nil => true
      | _ => false)

/-- The number of attributes a record keeps inline, `nAttrsInline`. -/
def nAttrsInline : Nat := 5

/-- A Go slice `[]Attr` that starts at the first slot of its backing array: the
number of the array, the length and the capacity.  A slice of capacity zero has
no storage; the nil slice is one. -/
structure AttrSlice where
  array : Nat
  len : Nat
  cap : Nat
deriving DecidableEq, Repr

/-- The backing arrays of the attribute slices, by number.  Copies of a slice
point into the same array.  A slot never written holds the zero attribute. -/
abbrev Arrays := List (List Attr)

/-- The attribute in slot `j` of backing array `array`. -/
def Arrays.slot (m : Arrays) (array j : Nat) : Attr :=
  (m.getD array []).getD j Attr.zero

/-- The arrays after writing `a` into slot `j` of backing array `array`. -/
def Arrays.store (m : Arrays) (array j : Nat) (a : Attr) : Arrays :=
  m.set array ((m.getD array []).set j a)

/-- The elements of a slice: the first `len` slots of its backing array. -/
def AttrSlice.elems (s : AttrSlice) (m : Arrays) : List Attr :=
  (List.range s.len).map (Arrays.slot m s.array)

/-- The nil slice. -/
def AttrSlice.nil : AttrSlice := { array := 0, len := 0, cap := 0 }

/-- The built-in `append(s, a)`.  With spare capacity the attribute is written
into the slot after the last element of the backing array that `s` shares with
its copies.  Otherwise the elements are copied into a new array, whose capacity
`grow oldCap needed` the runtime picks, not below the length needed. -/
def sliceAppend (grow : Nat → Nat → Nat) (s : AttrSlice) (a : Attr) (m : Arrays) :
    AttrSlice × Arrays :=
  if s.len < s.cap then
    ({ s with len := s.len + 1 }, Arrays.store m s.array s.len a)
  else
    let newCap := max (s.len + 1) (grow s.cap (s.len + 1))
    ({ array := m.length, len := s.len + 1, cap := newCap },
      m ++ [s.elems m ++ a :: List.replicate (newCap - (s.len + 1)) Attr.zero])

/-- The function `slices.Clip`: the same slice with its capacity cut down to its
length. -/
def slicesClip (s : AttrSlice) : AttrSlice := { s with cap := s.len }

/-- The function `slices.Grow(s, n)`: `s` itself when it has room for `n` more
elements, otherwise `append(s[:cap(s)], make([]Attr, n - room)...)[:len(s)]`, a
slice of the same length over a new array that holds a copy of every slot of
the old one. -/
def slicesGrow (grow : Nat → Nat → Nat) (s : AttrSlice) (n : Nat) (m : Arrays) :
    AttrSlice × Arrays :=
  if n ≤ s.cap - s.len then (s, m)
  else
    let needed := s.cap + (n - (s.cap - s.len))
    let newCap := max needed (grow s.cap needed)
    ({ array := m.length, len := s.len, cap := newCap },
      m ++ [(List.range s.cap).map (Arrays.slot m s.array)
              ++ List.replicate (newCap - s.cap) Attr.zero])

/-- The type `slog.Record`: time, message, level, program counter, the attributes
kept inline (`front[:nFront]`) and the slice `back` of the further ones.  A copy
of a record has its own `front` and shares the backing array of `back`. -/
structure Record where
  Time : Int
  Message : String
  Level : Level
  PC : Nat
  front : List Attr
  back : AttrSlice
deriving Repr

/-- The attributes of a record in the order `Record.Attrs` visits them: the
inline ones, then the elements of `back`. -/
def Record.Attrs (r : Record) (m : Arrays) : List Attr :=
  r.front ++ r.back.elems m

/-- The first loop of `Record.AddAttrs`: while the inline array has room, the next
attribute goes there unless it is an empty group, which is skipped.  Returns the
inline attributes and the attributes left over. -/
def fillFront : List Attr → List Attr → List Attr × List Attr
  | front, [] => (front, [])
  | front, a :: rest =>
      if front.length < nAttrsInline then
        if a.Value.isEmptyGroup then fillFront front rest
        else fillFront (front ++ [a]) rest
      else (front, a :: rest)

/-- The attribute `Record.AddAttrs` adds when it finds that a copy of the record
was modified. -/
def bugAttr : Attr :=
  { Key := "!BUG"
    Value := Value.KindString
      "AddAttrs unsafely called on copy of Record made without using Record.Clone" }

/-- The method `Record.AddAttrs`, on the receiver's copy `r` of the record.  The
attributes fill the inline array first.  Then, if `back` has spare capacity and
the slot past its end is not empty (a copy of the record has appended there),
`back` is clipped and the `!BUG` attribute appended to it.  Last, `back` is grown
for the attributes left over and they are appended, empty groups omitted. -/
def Record.AddAttrs (grow : Nat → Nat → Nat) (r : Record) (attrs : List Attr) (m : Arrays) :
    Record × Arrays :=
  let filled := fillFront r.front attrs
  let checked : AttrSlice × Arrays :=
    if r.back.len < r.back.cap then
      if !(Arrays.slot m r.back.array r.back.len).isEmpty then
        sliceAppend grow (slicesClip r.back) bugAttr m
      else (r.back, m)
    else (r.back, m)
  let kept := filled.2.filter (fun a => !a.Value.isEmptyGroup)
  let grown := slicesGrow grow checked.1 kept.length checked.2
  let appended :=
    kept.foldl (fun (acc : AttrSlice × Arrays) a => sliceAppend grow acc.1 a acc.2) grown
  ({ r with front := filled.1, back := appended.1 }, appended.2)

/-- The function `slog.NewRecord`: a record without attributes. -/
def slog.NewRecord (t : Int) (level : Level) (msg : String) (pc : Nat) : Record :=
  { Time := t, Message := msg, Level := level, PC := pc, front := [], back := AttrSlice.nil }

/-- Values of the interface `slog.Handler`: a handler implemented elsewhere
(`sink`), the handlers such a handler derives through `WithAttrs` and
`WithGroup`, and this package's `*spanContextLogHandler` with its embedded
`Handler` field. -/
inductive Handler where
  | sink (name : String)
  | derivedAttrs (h : Handler) (as : List Attr)
  | derivedGroup (h : Handler) (name : String)
  | spanContextLogHandler (Handler : Handler)
deriving Repr

/-- Whether a handler value is this package's `*spanContextLogHandler`. -/
def Handler.isSpanContextLogHandler : Handler → Bool
  | Handler.spanContextLogHandler _ => true
  | _ => false

/-- One call of the `Handle` method of a handler implemented elsewhere: the
handler, the context, the record, and the attributes the record holds at the
call. -/
structure HandleCall where
  handler : Handler
  ctx : Context
  record : Record
  attrs : List Attr

/-- The state of logging: the outside state, the backing arrays of the records'
slices, and the calls received so far by handlers implemented elsewhere. -/
structure LogState (W : Type) where
  world : W
  arrays : Arrays
  handled : List HandleCall

/-- The `Handle` methods of the handlers implemented elsewhere: for each handler,
context and record, from the backing arrays and the outside state, the result,
the backing arrays and the outside state after the call. -/
abbrev HandleImpl (W : Type) :=
  Handler → Context → Record → Arrays → W → error × Arrays × W

/-- The function `handlerWithSpanContext`. -/
def handlerWithSpanContext (handler : Handler) : Handler :=
  Handler.spanContextLogHandler handler

/-- The method `Handle`.  For `*spanContextLogHandler` it is the method of
`logger.go`: with a valid span context the three attributes are added to the
method's copy of the record, one `AddAttrs` call each and no `Clone` before,
and the record goes to the embedded handler, whose result is returned.  Any
other handler receives the call. -/
def Handler.Handle {W : Type} (impl : HandleImpl W) (grow : Nat → Nat → Nat) :
    Handler → Context → Record → LogState W → error × LogState W
  | Handler.spanContextLogHandler inner, ctx, record, st =>
      let spanContext := SpanContextFromContext ctx
      if spanContext.IsValid then
        let a1 := record.AddAttrs grow
          [slog.Any "logging.googleapis.com/trace" (Dyn.traceID spanContext.traceID)] st.arrays
        let a2 := a1.1.AddAttrs grow
          [slog.Any "logging.googleapis.com/spanId" (Dyn.spanID spanContext.spanID)] a1.2
        let a3 := a2.1.AddAttrs grow
          [slog.Bool "logging.googleapis.com/trace_sampled"
            (TraceFlags.IsSampled spanContext.traceFlags)] a2.2
        Handler.Handle impl grow inner ctx a3.1 { st with arrays := a3.2 }
      else Handler.Handle impl grow inner ctx record st
  | h, ctx, record, st =>
      let r := impl h ctx record st.arrays st.world
      (r.1,
        { world := r.2.2
          arrays := r.2.1
          handled := st.handled ++ [⟨h, ctx, record, record.Attrs st.arrays⟩] })

/-- The method `WithAttrs`.  `*spanContextLogHandler` does not define it: the
method of the embedded `Handler` is promoted.  A handler implemented elsewhere
returns a handler of its own. -/
def Handler.WithAttrs : Handler → List Attr → Handler
  | Handler.spanContextLogHandler inner, as => Handler.WithAttrs inner as
  | h, as => Handler.derivedAttrs h as

/-- The method `WithGroup`.  `*spanContextLogHandler` does not define it: the
method of the embedded `Handler` is promoted.  A handler implemented elsewhere
returns a handler of its own. -/
def Handler.WithGroup : Handler → String → Handler
  | Handler.spanContextLogHandler inner, name => Handler.WithGroup inner name
  | h, name => Handler.derivedGroup h name

/-- The function `replacer`, the `ReplaceAttr` option of the JSON handler.  The
type assertion on the level value panics when the value is not a `slog.Level`. -/
def replacer (groups : List String) (a : Attr) : Except String Attr :=
  if a.Key = slog.LevelKey then
    let a1 : Attr := { a with Key := "severity" }
    match a1.Value.Any.assertLevel with
    | Except.error msg => Except.error msg
    | Except.ok level =>
        if level = slog.LevelWarn then
          Except.ok { a1 with Value := slog.StringValue "WARNING" }
        else Except.ok a1
  else if a.Key = slog.TimeKey then Except.ok { a with Key := "timestamp" }
  else if a.Key = slog.MessageKey then Except.ok { a with Key := "message" }
  else Except.ok a

/-- The handler that `InitLogger` installs as the default logger's handler: the
JSON handler on standard output, with `replacer` as its `ReplaceAttr` and
`slog.LevelInfo` as its level, wrapped by `handlerWithSpanContext`. -/
def InitLogger : Handler :=
  let jsonHandler := Handler.sink "slog.NewJSONHandler(os.Stdout)"
  let instrumentedHandler := handlerWithSpanContext jsonHandler
  instrumentedHandler


/-! ## Sample inputs -/

/-- A context without a span. -/
def sampleCtx : Context := { id := 1, span := none }

/-- A valid, sampled span context. -/
def tracedSpanContext : SpanContext :=
  { traceID := 0xabc123, spanID := 0xdef456, traceFlags := 1, traceState := "", remote := false }

/-- A context that carries a valid, sampled span context. -/
def tracedCtx : Context := { id := 2, span := some tracedSpanContext }

/-- A context whose span context has a zero span id. -/
def invalidSpanCtx : Context :=
  { id := 3
    span := some { traceID := 0xabc123, spanID := 0, traceFlags := 1, traceState := "",
                   remote := false } }

/-- Library calls with fixed error results; the outside state counts the calls
made. -/
def sampleExt (prom std meterSd tracerSd rt : error) : Ext Nat :=
  { prometheusNew := fun w => (prom, w + 1)
    stdouttraceNew := fun w => (std, w + 1)
    meterProviderShutdown := fun _ w => (meterSd, w + 1)
    tracerProviderShutdown := fun _ w => (tracerSd, w + 1)
    runtimeStart := fun _ w => (rt, w + 1) }

/-- Global registrations before setup. -/
def noGlobals : Globals :=
  { textMapPropagator := none, meterProvider := none, tracerProvider := none }

/-- A registry of three cleanups, the first and the last of which fail. -/
def sampleRegistry : List (Cleanup Nat) :=
  [ { name := "first", run := fun _ w => (some (GoError.leaf "first failed"), w + 1) },
    { name := "second", run := fun _ w => (none, w + 1) },
    { name := "third", run := fun _ w => (some (GoError.leaf "third failed"), w + 1) } ]

/-- A record with one attribute, kept inline. -/
def sampleRecord : Record :=
  { Time := 1700000000, Message := "hello", Level := slog.LevelInfo, PC := 0,
    front := [{ Key := "user", Value := Value.KindString "ada" }], back := AttrSlice.nil }

/-- Handlers implemented elsewhere that accept every record and leave the backing
arrays as they are; the outside state counts the records received. -/
def sampleImpl : HandleImpl Nat := fun _ _ _ m w => (none, m, w + 1)

/-- A capacity choice of the runtime: a tenth more than needed, rounded down. -/
def sampleGrow : Nat → Nat → Nat := fun _ needed => needed + needed / 10

/-- Twenty-five attributes. -/
def manyAttrs : List Attr :=
  (List.range 25).map (fun i => { Key := "k", Value := Value.KindInt64 i })

/-- A record with twenty-five attributes, built as `slog.LogAttrs` builds it, by
one `AddAttrs` call on a new record, together with the backing arrays after
that call: five attributes inline, twenty in `back`, whose capacity is
twenty-two. -/
def largeRecord : Record × Arrays :=
  Record.AddAttrs sampleGrow (slog.NewRecord 1700000000 slog.LevelInfo "hello" 0) manyAttrs []

/-- The handler of `InitLogger` handling `largeRecord` under the traced context. -/
def firstHandle : error × LogState Nat :=
  Handler.Handle sampleImpl sampleGrow InitLogger tracedCtx largeRecord.1
    { world := 0, arrays := largeRecord.2, handled := [] }

/-- The handler of `InitLogger` handling the same `largeRecord` a second time. -/
def secondHandle : error × LogState Nat :=
  Handler.Handle sampleImpl sampleGrow InitLogger tracedCtx largeRecord.1 firstHandle.2

/-! ## Facts about `errors.Join` and `errors.Is` -/

mutual
theorem GoError.beq_self : ∀ e : GoError, GoError.beq e e = true
  | GoError.leaf m => by simp [GoError.beq]
  | GoError.joinError es => by
      have h := GoError.beqList_self es
      simp [GoError.beq, h]
theorem GoError.beqList_self : ∀ es : List GoError, GoError.beqList es es = true
  | [] => by simp [GoError.beqList]
  | e :: es => by
      have h1 := GoError.beq_self e
      have h2 := GoError.beqList_self es
      simp [GoError.beqList, h1, h2]
end

theorem GoError.Is_self (e : GoError) : GoError.Is e e = true := by
  cases e with
  | leaf m => simp [GoError.Is, GoError.beq_self]
  | joinError es => simp [GoError.Is, GoError.beq_self]

theorem GoError.IsAny_of_mem (t : GoError) :
    ∀ (es : List GoError) (e : GoError), e ∈ es → GoError.Is t e = true →
      GoError.IsAny t es = true
  | [], _, h, _ => by cases h
  | x :: xs, e, h, he => by
      rcases List.mem_cons.mp h with rfl | h
      · simp [GoError.IsAny, he]
      · have := GoError.IsAny_of_mem t xs e h he
        simp [GoError.IsAny, this]

theorem Join_pair_eq_none (a b : error) : Join [a, b] = none ↔ a = none ∧ b = none := by
  cases a <;> cases b <;> simp [Join]

theorem wraps_Join_left (a b : error) (t : GoError) (h : wraps a t = true) :
    wraps (Join [a, b]) t = true := by
  cases a with
  | none => simp [wraps] at h
  | some x =>
      have hx : GoError.Is t x = true := by simpa [wraps] using h
      cases b with
      | none =>
          have := GoError.IsAny_of_mem t [x] x (by simp) hx
          simp [Join, wraps, GoError.Is, this]
      | some y =>
          have := GoError.IsAny_of_mem t [x, y] x (by simp) hx
          simp [Join, wraps, GoError.Is, this]

theorem wraps_Join_right (a b : error) (t : GoError) (h : wraps b t = true) :
    wraps (Join [a, b]) t = true := by
  cases b with
  | none => simp [wraps] at h
  | some y =>
      have hy : GoError.Is t y = true := by simpa [wraps] using h
      cases a with
      | none =>
          have := GoError.IsAny_of_mem t [y] y (by simp) hy
          simp [Join, wraps, GoError.Is, this]
      | some x =>
          have := GoError.IsAny_of_mem t [x, y] y (by simp) hy
          simp [Join, wraps, GoError.Is, this]

theorem wraps_some_self (e : GoError) : wraps (some e) e = true := by
  simp [wraps, GoError.Is_self]

theorem joinFold_eq_none (rs : List error) :
    ∀ acc : error, joinFold acc rs = none ↔ acc = none ∧ ∀ r ∈ rs, r = none := by
  induction rs with
  | nil => intro acc; simp [joinFold]
  | cons r rs ih =>
      intro acc
      have h := ih (Join [acc, r])
      simp only [joinFold, List.foldl_cons] at h ⊢
      rw [h, Join_pair_eq_none]
      simp [and_assoc]

theorem wraps_joinFold_acc (rs : List error) (t : GoError) :
    ∀ acc : error, wraps acc t = true → wraps (joinFold acc rs) t = true := by
  induction rs with
  | nil => intro acc h; simpa [joinFold] using h
  | cons r rs ih =>
      intro acc h
      have := ih (Join [acc, r]) (wraps_Join_left acc r t h)
      simpa [joinFold] using this

theorem wraps_joinFold_mem (rs : List error) (t : GoError) :
    ∀ acc : error, (∃ r ∈ rs, wraps r t = true) → wraps (joinFold acc rs) t = true := by
  induction rs with
  | nil => intro acc h; simp at h
  | cons r rs ih =>
      intro acc h
      rcases h with ⟨r0, hmem, hw⟩
      rcases List.mem_cons.mp hmem with rfl | hmem
      · have := wraps_joinFold_acc rs t (Join [acc, r0]) (wraps_Join_right acc r0 t hw)
        simpa [joinFold] using this
      · have := ih (Join [acc, r]) ⟨r0, hmem, hw⟩
        simpa [joinFold] using this

/-! ## Facts about the shutdown loop -/

theorem shutdownLoop_eq {W : Type} (ctx : Context) (fs : List (Cleanup W)) :
    ∀ (err : error) (w : W) (calls : List CleanupCall),
      shutdownLoop ctx fs err w calls =
        (joinFold err ((runAll ctx fs w).map (fun ev => ev.result)), worldAfter ctx fs w,
          calls ++ runAll ctx fs w) := by
  induction fs with
  | nil => intro err w calls; simp [shutdownLoop, runAll, worldAfter, joinFold]
  | cons fn rest ih =>
      intro err w calls
      simp [shutdownLoop, runAll, worldAfter, joinFold, ih]

theorem runAll_names {W : Type} (ctx : Context) (fs : List (Cleanup W)) :
    ∀ w : W, (runAll ctx fs w).map (fun ev => (ev.fn, ev.ctx)) = fs.map (fun f => (f.name, ctx)) := by
  induction fs with
  | nil => intro w; simp [runAll]
  | cons fn rest ih => intro w; simp [runAll, ih]

theorem shutdown_eq {W : Type} (ctx : Context) (s : State W) :
    shutdown ctx s =
      (joinFold none ((runAll ctx s.shutdownFuncs s.world).map (fun ev => ev.result)),
        { s with
          shutdownFuncs := []
          world := worldAfter ctx s.shutdownFuncs s.world
          calls := s.calls ++ runAll ctx s.shutdownFuncs s.world }) := by
  simp [shutdown, shutdownLoop_eq]

theorem shutdown_drained {W : Type} (ctx : Context) (s : State W)
    (h : s.shutdownFuncs = []) : shutdown ctx s = (none, s) := by
  cases s with
  | mk fs w g calls =>
      simp only at h
      subst h
      simp [shutdown, shutdownLoop]

theorem shutdownSeq_drained {W : Type} (cs : List Context) :
    ∀ s : State W, s.shutdownFuncs = [] →
      shutdownSeq cs s = (List.replicate cs.length none, s) := by
  induction cs with
  | nil => intro s _; simp [shutdownSeq]
  | cons c cs ih =>
      intro s h
      simp [shutdownSeq, shutdown_drained c s h, ih s h, List.replicate_succ]


/-! ## otel.go: the shutdown closure -/

/-- C1: the first invocation of the shutdown closure, with context `c`, calls every
registered callback once, with `c`, in registration order, each after its
predecessor whatever that one returned; it returns the `errors.Join` fold of the
results in that order, which is nil exactly when every callback returned nil and
otherwise wraps every non-nil error a callback returned. -/
theorem shutdown_first_invocation {W : Type} (s : State W) (c : Context) :
    (shutdown c s).2.calls = s.calls ++ runAll c s.shutdownFuncs s.world
    ∧ (runAll c s.shutdownFuncs s.world).map (fun ev => (ev.fn, ev.ctx))
        = s.shutdownFuncs.map (fun f => (f.name, c))
    ∧ (shutdown c s).1
        = ((runAll c s.shutdownFuncs s.world).map (fun ev => ev.result)).foldl
            (fun acc r => Join [acc, r]) none
    ∧ ((shutdown c s).1 = none ↔ ∀ ev ∈ runAll c s.shutdownFuncs s.world, ev.result = none)
    ∧ (∀ ev ∈ runAll c s.shutdownFuncs s.world, ∀ e : GoError,
        ev.result = some e → wraps (shutdown c s).1 e = true) := by
  rw [shutdown_eq]
  refine ⟨rfl, runAll_names c _ _, rfl, ?_, ?_⟩
  · simp only [joinFold_eq_none, true_and, List.mem_map]
    constructor
    · intro h ev hev
      exact h ev.result ⟨ev, hev, rfl⟩
    · rintro h r ⟨ev, hev, rfl⟩
      exact h ev hev
  · intro ev hev e he
    apply wraps_joinFold_mem
    refine ⟨ev.result, List.mem_map.mpr ⟨ev, hev, rfl⟩, ?_⟩
    rw [he]
    exact wraps_some_self e

/-- C2: once the shutdown closure has been invoked, the registry is empty; every
later invocation of a sequence returns nil and leaves the state as the first
invocation left it, so over the whole sequence the cleanup calls made are the
single pass of the first invocation: each registered cleanup once. -/
theorem shutdown_later_invocations_noop {W : Type} (s : State W) (c : Context)
    (cs : List Context) :
    (shutdown c s).2.shutdownFuncs = []
    ∧ shutdownSeq (c :: cs) s = ((shutdown c s).1 :: List.replicate cs.length none, (shutdown c s).2)
    ∧ (shutdownSeq (c :: cs) s).2.calls = s.calls ++ runAll c s.shutdownFuncs s.world
    ∧ ((shutdownSeq (c :: cs) s).2.calls.drop s.calls.length).map (fun ev => ev.fn)
        = s.shutdownFuncs.map (fun f => f.name)
    ∧ (∀ c2 : Context, shutdown c2 (shutdown c s).2 = (none, (shutdown c s).2)) := by
  have hd : (shutdown c s).2.shutdownFuncs = [] := by simp [shutdown]
  have hseq : shutdownSeq (c :: cs) s
      = ((shutdown c s).1 :: List.replicate cs.length none, (shutdown c s).2) := by
    simp [shutdownSeq, shutdownSeq_drained cs _ hd]
  refine ⟨hd, hseq, ?_, ?_, ?_⟩
  · rw [hseq, shutdown_eq]
  · rw [hseq, shutdown_eq]
    have := congrArg (List.map Prod.fst) (runAll_names c s.shutdownFuncs s.world)
    simpa [List.map_map, Function.comp_def] using this
  · intro c2
    exact shutdown_drained c2 _ hd


/-- The shutdown closure on the sample registry: all three cleanups are called
although the first fails, and both errors are in the nested joins returned. -/
theorem shutdown_sampleRegistry :
    (shutdown sampleCtx
        { shutdownFuncs := sampleRegistry, world := 0, globals := noGlobals, calls := [] }).1
      = some (GoError.joinError
          [GoError.joinError [GoError.joinError [GoError.leaf "first failed"]],
            GoError.leaf "third failed"])
    ∧ (shutdown sampleCtx
        { shutdownFuncs := sampleRegistry, world := 0, globals := noGlobals,
          calls := [] }).2.calls.map (fun ev => ev.fn)
      = ["first", "second", "third"] :=
  ⟨rfl, rfl⟩

/-! ## otel.go: failures during `SetupOTelSDK` -/

theorem SetupOTelSDK_meter_failure {W : Type} (x : Ext W) (ctx : Context) (g : Globals)
    (w : W) (e : GoError) (h : (x.prometheusNew w).1 = some e) :
    SetupOTelSDK x ctx g w =
      { shutdown := FuncValue.shutdownClosure
        err := Join [some e, none]
        state :=
          { shutdownFuncs := []
            world := (x.prometheusNew w).2
            globals := { g with textMapPropagator := some Propagator.autoprop }
            calls := [] } } := by
  rcases hp : x.prometheusNew w with ⟨r, w1⟩
  rw [hp] at h
  simp only at h
  subst h
  simp [SetupOTelSDK, newMeterProvider, hp, handleErr, shutdown, shutdownLoop]

theorem SetupOTelSDK_tracer_failure {W : Type} (x : Ext W) (ctx : Context) (g : Globals)
    (w : W) (e : GoError) (hm : (x.prometheusNew w).1 = none)
    (ht : (x.stdouttraceNew (x.prometheusNew w).2).1 = some e) :
    SetupOTelSDK x ctx g w =
      { shutdown := FuncValue.shutdownClosure
        err := Join [some e,
          Join [none, (x.meterProviderShutdown ctx (x.stdouttraceNew (x.prometheusNew w).2).2).1]]
        state :=
          { shutdownFuncs := []
            world := (x.meterProviderShutdown ctx (x.stdouttraceNew (x.prometheusNew w).2).2).2
            globals :=
              { g with
                textMapPropagator := some Propagator.autoprop
                meterProvider := some { reader := "prometheus" } }
            calls := [⟨"meterProvider.Shutdown", ctx,
              (x.meterProviderShutdown ctx (x.stdouttraceNew (x.prometheusNew w).2).2).1⟩] } } := by
  rcases hp : x.prometheusNew w with ⟨r, w1⟩
  rw [hp] at hm ht
  simp only at hm ht
  subst hm
  rcases hs : x.stdouttraceNew w1 with ⟨r2, w2⟩
  rw [hs] at ht
  simp only at ht
  subst ht
  simp [SetupOTelSDK, newMeterProvider, newTracerProvider, hp, hs, handleErr, shutdown,
    shutdownLoop, meterCleanup]

theorem SetupOTelSDK_runtime_step {W : Type} (x : Ext W) (ctx : Context) (g : Globals)
    (w : W) (hm : (x.prometheusNew w).1 = none)
    (ht : (x.stdouttraceNew (x.prometheusNew w).2).1 = none) :
    (SetupOTelSDK x ctx g w).shutdown = FuncValue.shutdownClosure
    ∧ (SetupOTelSDK x ctx g w).err = none
    ∧ (SetupOTelSDK x ctx g w).state =
        (match (x.runtimeStart Second (x.stdouttraceNew (x.prometheusNew w).2).2).1 with
          | some e =>
              (handleErr ctx (some e)
                { shutdownFuncs := [meterCleanup x, tracerCleanup x]
                  world := (x.runtimeStart Second (x.stdouttraceNew (x.prometheusNew w).2).2).2
                  globals :=
                    { textMapPropagator := some Propagator.autoprop
                      meterProvider := some { reader := "prometheus" }
                      tracerProvider := some
                        { sampler := "NeverSample"
                          spanProcessor := "BatchSpanProcessor(stdouttrace)" } }
                  calls := [] }).2
          | none =>
              { shutdownFuncs := [meterCleanup x, tracerCleanup x]
                world := (x.runtimeStart Second (x.stdouttraceNew (x.prometheusNew w).2).2).2
                globals :=
                  { textMapPropagator := some Propagator.autoprop
                    meterProvider := some { reader := "prometheus" }
                    tracerProvider := some
                      { sampler := "NeverSample"
                        spanProcessor := "BatchSpanProcessor(stdouttrace)" } }
                calls := [] }) := by
  rcases hp : x.prometheusNew w with ⟨r, w1⟩
  rw [hp] at hm ht
  simp only at hm ht
  subst hm
  rcases hs : x.stdouttraceNew w1 with ⟨r2, w2⟩
  rw [hs] at ht
  simp only at ht
  subst ht
  simp only [SetupOTelSDK, newMeterProvider, newTracerProvider, hp, hs, List.nil_append,
    List.singleton_append, true_and]
  cases (x.runtimeStart Second w2).1 <;> rfl

/-- C3: when building the meter provider fails with `e`, no cleanup is called and
the error returned is `errors.Join(e, nil)`; when building the tracer provider
fails with `e`, the only cleanup called is the meter provider's `Shutdown`, once,
with the setup context, and the error returned is `errors.Join(e, s)`, `s` being
the join fold of that call's result.  In both cases the error is non-nil and
wraps `e`, and in the second it wraps the error of the cleanup, if any. -/
theorem SetupOTelSDK_construction_failure_joins_errors {W : Type} (x : Ext W) (ctx : Context) (g : Globals)
    (w : W) (e : GoError) :
    ((x.prometheusNew w).1 = some e →
        (SetupOTelSDK x ctx g w).state.calls = []
        ∧ (SetupOTelSDK x ctx g w).err
            = Join [some e, ([] : List error).foldl (fun acc r => Join [acc, r]) none]
        ∧ (SetupOTelSDK x ctx g w).err ≠ none
        ∧ wraps (SetupOTelSDK x ctx g w).err e = true)
    ∧ ((x.prometheusNew w).1 = none → (x.stdouttraceNew (x.prometheusNew w).2).1 = some e →
        (SetupOTelSDK x ctx g w).state.calls
            = [⟨"meterProvider.Shutdown", ctx,
                (x.meterProviderShutdown ctx (x.stdouttraceNew (x.prometheusNew w).2).2).1⟩]
        ∧ (SetupOTelSDK x ctx g w).err
            = Join [some e,
                [(x.meterProviderShutdown ctx (x.stdouttraceNew (x.prometheusNew w).2).2).1].foldl
                  (fun acc r => Join [acc, r]) none]
        ∧ (SetupOTelSDK x ctx g w).err ≠ none
        ∧ wraps (SetupOTelSDK x ctx g w).err e = true
        ∧ (∀ e2 : GoError,
            (x.meterProviderShutdown ctx (x.stdouttraceNew (x.prometheusNew w).2).2).1 = some e2 →
            wraps (SetupOTelSDK x ctx g w).err e2 = true)) := by
  constructor
  · intro h
    rw [SetupOTelSDK_meter_failure x ctx g w e h]
    refine ⟨rfl, rfl, ?_, ?_⟩
    · simp [Join]
    · exact wraps_Join_left _ _ _ (wraps_some_self e)
  · intro hm ht
    rw [SetupOTelSDK_tracer_failure x ctx g w e hm ht]
    refine ⟨rfl, rfl, ?_, ?_, ?_⟩
    · simp [Join]
    · exact wraps_Join_left _ _ _ (wraps_some_self e)
    · intro e2 h2
      show wraps (Join [some e, Join [none, _]]) e2 = true
      apply wraps_Join_right
      apply wraps_Join_right
      rw [h2]
      exact wraps_some_self e2

/-- C3, at sample inputs: a failing Prometheus exporter, and a failing trace
exporter with a meter provider whose shutdown fails as well. -/
theorem SetupOTelSDK_construction_failure_joins_errors_witness :
    (((sampleExt (some (GoError.leaf "prometheus")) none none none none).prometheusNew 0).1
        = some (GoError.leaf "prometheus")
      ∧ (SetupOTelSDK (sampleExt (some (GoError.leaf "prometheus")) none none none none)
        sampleCtx noGlobals 0).err ≠ none)
    ∧ (((sampleExt none (some (GoError.leaf "stdouttrace")) (some (GoError.leaf "meter")) none
          none).stdouttraceNew 1).1 = some (GoError.leaf "stdouttrace")
      ∧ wraps (SetupOTelSDK
          (sampleExt none (some (GoError.leaf "stdouttrace")) (some (GoError.leaf "meter")) none
            none)
          sampleCtx noGlobals 0).err (GoError.leaf "meter") = true) :=
  ⟨⟨rfl, ((SetupOTelSDK_construction_failure_joins_errors
        (sampleExt (some (GoError.leaf "prometheus")) none none none none)
        sampleCtx noGlobals 0 (GoError.leaf "prometheus")).1 rfl).2.2.1⟩,
   ⟨rfl, ((SetupOTelSDK_construction_failure_joins_errors
        (sampleExt none (some (GoError.leaf "stdouttrace")) (some (GoError.leaf "meter")) none none)
        sampleCtx noGlobals 0 (GoError.leaf "stdouttrace")).2 rfl rfl).2.2.2.2
      (GoError.leaf "meter") rfl⟩⟩

/-- C4: when both providers are built and `runtime.Start` fails with `e`, the two
registered cleanups are run, in registration order, with the setup context, and
the registry is emptied, but the error `SetupOTelSDK` returns is nil: the value
`handleErr` stored in `err` is replaced by the nil of `return shutdown, nil`. -/
theorem SetupOTelSDK_runtimeStart_failure_returns_nil {W : Type} (x : Ext W) (ctx : Context)
    (g : Globals) (w : W) (e : GoError)
    (hm : (x.prometheusNew w).1 = none)
    (ht : (x.stdouttraceNew (x.prometheusNew w).2).1 = none)
    (hr : (x.runtimeStart Second (x.stdouttraceNew (x.prometheusNew w).2).2).1 = some e) :
    (SetupOTelSDK x ctx g w).err = none
    ∧ (SetupOTelSDK x ctx g w).state.calls.map (fun ev => (ev.fn, ev.ctx))
        = [("meterProvider.Shutdown", ctx), ("tracerProvider.Shutdown", ctx)]
    ∧ (SetupOTelSDK x ctx g w).state.shutdownFuncs = [] := by
  obtain ⟨_, herr, hst⟩ := SetupOTelSDK_runtime_step x ctx g w hm ht
  rw [hr] at hst
  refine ⟨herr, ?_, ?_⟩
  · rw [hst]
    simp [handleErr, shutdown, shutdownLoop, meterCleanup, tracerCleanup]
  · rw [hst]
    simp [handleErr, shutdown]

/-- C4, at a sample input: both providers are built, `runtime.Start` fails, and
the error returned is nil. -/
theorem SetupOTelSDK_runtimeStart_failure_returns_nil_witness :
    ((sampleExt none none none none (some (GoError.leaf "runtime"))).runtimeStart Second 2).1
        = some (GoError.leaf "runtime")
    ∧ (SetupOTelSDK (sampleExt none none none none (some (GoError.leaf "runtime")))
        sampleCtx noGlobals 0).err = none :=
  ⟨rfl, (SetupOTelSDK_runtimeStart_failure_returns_nil
    (sampleExt none none none none (some (GoError.leaf "runtime"))) sampleCtx noGlobals 0
    (GoError.leaf "runtime") rfl rfl rfl).1⟩

/-- C5, refuted as stated: with a failing Prometheus exporter the meter provider
step fails, and the shutdown function returned is not nil. -/
theorem SetupOTelSDK_failure_shutdown_not_nil :
    ((sampleExt (some (GoError.leaf "prometheus")) none none none none).prometheusNew 0).1
        = some (GoError.leaf "prometheus")
    ∧ (SetupOTelSDK (sampleExt (some (GoError.leaf "prometheus")) none none none none)
        sampleCtx noGlobals 0).err ≠ none
    ∧ (SetupOTelSDK (sampleExt (some (GoError.leaf "prometheus")) none none none none)
        sampleCtx noGlobals 0).shutdown ≠ FuncValue.nil := by
  refine ⟨rfl, ?_, ?_⟩
  · rw [SetupOTelSDK_meter_failure _ _ _ _ (GoError.leaf "prometheus") rfl]
    simp [Join]
  · rw [SetupOTelSDK_meter_failure _ _ _ _ (GoError.leaf "prometheus") rfl]
    simp

/-- C5, amended: when building the meter provider or the tracer provider fails,
the shutdown function returned with the error is not nil: it is the shutdown
closure, whose registry the cleanup of the failure has already emptied, so that
calling it with any context makes no cleanup call, changes nothing and returns
nil. -/
theorem SetupOTelSDK_failed_construction_returns_drained_closure {W : Type} (x : Ext W)
    (ctx : Context) (g : Globals) (w : W)
    (h : (x.prometheusNew w).1 ≠ none
      ∨ ((x.prometheusNew w).1 = none ∧ (x.stdouttraceNew (x.prometheusNew w).2).1 ≠ none)) :
    (SetupOTelSDK x ctx g w).shutdown = FuncValue.shutdownClosure
    ∧ (SetupOTelSDK x ctx g w).shutdown ≠ FuncValue.nil
    ∧ (SetupOTelSDK x ctx g w).state.shutdownFuncs = []
    ∧ (∀ c : Context,
        (SetupOTelSDK x ctx g w).shutdown.call c (SetupOTelSDK x ctx g w).state
          = Except.ok (none, (SetupOTelSDK x ctx g w).state)) := by
  have key : ∀ r : SetupResult W, r.shutdown = FuncValue.shutdownClosure →
      r.state.shutdownFuncs = [] →
      r.shutdown = FuncValue.shutdownClosure ∧ r.shutdown ≠ FuncValue.nil
        ∧ r.state.shutdownFuncs = []
        ∧ (∀ c : Context, r.shutdown.call c r.state = Except.ok (none, r.state)) := by
    intro r h1 h2
    refine ⟨h1, by simp [h1], h2, ?_⟩
    intro c
    rw [h1]
    simp [FuncValue.call, shutdown_drained c r.state h2]
  rcases h with h | ⟨hm, ht⟩
  · obtain ⟨e, he⟩ := Option.ne_none_iff_exists'.mp h
    apply key <;> rw [SetupOTelSDK_meter_failure x ctx g w e he]
  · obtain ⟨e, he⟩ := Option.ne_none_iff_exists'.mp ht
    apply key <;> rw [SetupOTelSDK_tracer_failure x ctx g w e hm he]

/-- C5 amended, at a sample input: the trace exporter fails, and the function
returned is the closure over an emptied registry. -/
theorem SetupOTelSDK_failed_construction_returns_drained_closure_witness :
    ((sampleExt none (some (GoError.leaf "stdouttrace")) none none none).stdouttraceNew 1).1 ≠ none
    ∧ (SetupOTelSDK (sampleExt none (some (GoError.leaf "stdouttrace")) none none none)
        sampleCtx noGlobals 0).shutdown ≠ FuncValue.nil :=
  ⟨by simp [sampleExt], (SetupOTelSDK_failed_construction_returns_drained_closure
    (sampleExt none (some (GoError.leaf "stdouttrace")) none none none) sampleCtx noGlobals 0
    (Or.inr ⟨rfl, by simp [sampleExt]⟩)).2.1⟩


/-! ## logger.go: `spanContextLogHandler.Handle` -/

theorem Handle_elsewhere {W : Type} (impl : HandleImpl W) (grow : Nat → Nat → Nat)
    (h : Handler) (ctx : Context) (r : Record) (st : LogState W)
    (hh : h.isSpanContextLogHandler = false) :
    Handler.Handle impl grow h ctx r st =
      ((impl h ctx r st.arrays st.world).1,
        { world := (impl h ctx r st.arrays st.world).2.2
          arrays := (impl h ctx r st.arrays st.world).2.1
          handled := st.handled ++ [⟨h, ctx, r, r.Attrs st.arrays⟩] }) := by
  cases h with
  | spanContextLogHandler inner => simp [Handler.isSpanContextLogHandler] at hh
  | sink n => simp [Handler.Handle]
  | derivedAttrs h0 as => simp [Handler.Handle]
  | derivedGroup h0 g => simp [Handler.Handle]

theorem Handle_invalid {W : Type} (impl : HandleImpl W) (grow : Nat → Nat → Nat)
    (h : Handler) (ctx : Context) (r : Record) (st : LogState W)
    (hv : (SpanContextFromContext ctx).IsValid = false) :
    Handler.Handle impl grow (handlerWithSpanContext h) ctx r st
      = Handler.Handle impl grow h ctx r st := by
  simp [handlerWithSpanContext, Handler.Handle, hv]

/-- C6: the same record of twenty-five attributes, twenty of them in `back` with
room for two more, handled twice by the handler of `InitLogger` under a context
with a valid span context.  The first call passes the record on with its
attributes followed by the three trace attributes.  The second call finds the
slot past the end of `back` written by the first and passes the record on with
twenty-nine attributes: its own, then `!BUG`, then the three trace attributes. -/
theorem Handle_same_record_twice_adds_bug_attribute :
    (SpanContextFromContext tracedCtx).IsValid = true
    ∧ largeRecord.1.Attrs largeRecord.2 = manyAttrs
    ∧ manyAttrs.length = 25
    ∧ firstHandle.2.handled.map (fun c => (c.ctx, c.attrs))
        = [(tracedCtx, manyAttrs ++
            [ { Key := "logging.googleapis.com/trace",
                Value := Value.KindAny (Dyn.traceID 0xabc123) },
              { Key := "logging.googleapis.com/spanId",
                Value := Value.KindAny (Dyn.spanID 0xdef456) },
              { Key := "logging.googleapis.com/trace_sampled", Value := Value.KindBool true } ])]
    ∧ secondHandle.2.handled.map (fun c => (c.ctx, c.attrs))
        = [(tracedCtx, manyAttrs ++
            [ { Key := "logging.googleapis.com/trace",
                Value := Value.KindAny (Dyn.traceID 0xabc123) },
              { Key := "logging.googleapis.com/spanId",
                Value := Value.KindAny (Dyn.spanID 0xdef456) },
              { Key := "logging.googleapis.com/trace_sampled", Value := Value.KindBool true } ]),
           (tracedCtx, manyAttrs ++
            [ { Key := "!BUG",
                Value := Value.KindString
                  "AddAttrs unsafely called on copy of Record made without using Record.Clone" },
              { Key := "logging.googleapis.com/trace",
                Value := Value.KindAny (Dyn.traceID 0xabc123) },
              { Key := "logging.googleapis.com/spanId",
                Value := Value.KindAny (Dyn.spanID 0xdef456) },
              { Key := "logging.googleapis.com/trace_sampled", Value := Value.KindBool true } ])]
    ∧ secondHandle.2.handled.map (fun c => c.attrs.length) = [28, 29] := by
  refine ⟨by decide, ?_, ?_, ?_, ?_, ?_⟩ <;> rfl

/-- C7: under a context that carries no span, or a span context whose trace id or
span id is zero, `Handle` of the decorator is one call of the wrapped handler's
`Handle`, in the same state, with the same context and the record `r` itself; its
result, nil or not, is that call's result.  A wrapped handler implemented
elsewhere receives exactly that one call. -/
theorem Handle_no_valid_span_context {W : Type} (impl : HandleImpl W)
    (grow : Nat → Nat → Nat) (h : Handler)
    (ctx : Context) (r : Record) (st : LogState W)
    (hctx : ctx.span = none
      ∨ ∃ sc : SpanContext, ctx.span = some sc ∧ (sc.traceID = 0 ∨ sc.spanID = 0)) :
    Handler.Handle impl grow (handlerWithSpanContext h) ctx r st
        = Handler.Handle impl grow h ctx r st
    ∧ (h.isSpanContextLogHandler = false →
        (Handler.Handle impl grow (handlerWithSpanContext h) ctx r st).1
            = (impl h ctx r st.arrays st.world).1
        ∧ (Handler.Handle impl grow (handlerWithSpanContext h) ctx r st).2.handled
            = st.handled ++ [⟨h, ctx, r, r.Attrs st.arrays⟩]) := by
  have hv : (SpanContextFromContext ctx).IsValid = false := by
    rcases hctx with hn | ⟨sc, hsc, hz⟩
    · simp [SpanContextFromContext, hn, SpanContext.zero, SpanContext.IsValid, TraceID.IsValid]
    · rcases hz with hz | hz
      · simp [SpanContextFromContext, hsc, SpanContext.IsValid, TraceID.IsValid, hz]
      · simp [SpanContextFromContext, hsc, SpanContext.IsValid, SpanID.IsValid, hz]
  have key := Handle_invalid impl grow h ctx r st hv
  refine ⟨key, ?_⟩
  intro hh
  rw [key, Handle_elsewhere impl grow h ctx r st hh]
  exact ⟨rfl, rfl⟩

/-- C7, at the sample context whose span id is zero: the record reaches the JSON
handler with its own attribute only. -/
theorem Handle_no_valid_span_context_witness :
    (∃ sc : SpanContext, invalidSpanCtx.span = some sc ∧ (sc.traceID = 0 ∨ sc.spanID = 0))
    ∧ ((Handler.Handle sampleImpl sampleGrow (handlerWithSpanContext (Handler.sink "json"))
          invalidSpanCtx sampleRecord { world := 0, arrays := [], handled := [] }).2.handled.map
        (fun c => c.attrs.map (fun a => a.Key)))
      = [["user"]] :=
  ⟨⟨_, rfl, Or.inr rfl⟩, by
    rw [((Handle_no_valid_span_context sampleImpl sampleGrow (Handler.sink "json")
      invalidSpanCtx sampleRecord { world := 0, arrays := [], handled := [] }
      (Or.inr ⟨_, rfl, Or.inr rfl⟩)).2 rfl).2]
    rfl⟩

/-! ## logger.go: handlers derived from the decorator -/

theorem WithAttrs_elsewhere (h : Handler) (as : List Attr)
    (hh : h.isSpanContextLogHandler = false) : h.WithAttrs as = Handler.derivedAttrs h as := by
  cases h with
  | spanContextLogHandler inner => simp [Handler.isSpanContextLogHandler] at hh
  | sink n => rfl
  | derivedAttrs h0 as0 => rfl
  | derivedGroup h0 g => rfl

theorem WithGroup_elsewhere (h : Handler) (name : String)
    (hh : h.isSpanContextLogHandler = false) : h.WithGroup name = Handler.derivedGroup h name := by
  cases h with
  | spanContextLogHandler inner => simp [Handler.isSpanContextLogHandler] at hh
  | sink n => rfl
  | derivedAttrs h0 as0 => rfl
  | derivedGroup h0 g => rfl

/-- C9: `*spanContextLogHandler` has no `WithAttrs` and no `WithGroup` of its own,
so the handler derived from the decorator of a handler `h` implemented elsewhere
is the handler `h` itself derives, not a decorator; under any context, a valid
span context included, it receives the record as it is, without the trace
attributes. -/
theorem derived_handler_not_enriched {W : Type} (impl : HandleImpl W)
    (grow : Nat → Nat → Nat) (h : Handler)
    (as : List Attr) (name : String) (ctx : Context) (r : Record) (st : LogState W)
    (hh : h.isSpanContextLogHandler = false) :
    (handlerWithSpanContext h).WithAttrs as = Handler.derivedAttrs h as
    ∧ (handlerWithSpanContext h).WithGroup name = Handler.derivedGroup h name
    ∧ (Handler.Handle impl grow ((handlerWithSpanContext h).WithAttrs as) ctx r st).2.handled
        = st.handled ++ [⟨Handler.derivedAttrs h as, ctx, r, r.Attrs st.arrays⟩]
    ∧ (Handler.Handle impl grow ((handlerWithSpanContext h).WithGroup name) ctx r st).2.handled
        = st.handled ++ [⟨Handler.derivedGroup h name, ctx, r, r.Attrs st.arrays⟩] := by
  have h1 : (handlerWithSpanContext h).WithAttrs as = Handler.derivedAttrs h as := by
    simp [handlerWithSpanContext, Handler.WithAttrs, WithAttrs_elsewhere h as hh]
  have h2 : (handlerWithSpanContext h).WithGroup name = Handler.derivedGroup h name := by
    simp [handlerWithSpanContext, Handler.WithGroup, WithGroup_elsewhere h name hh]
  refine ⟨h1, h2, ?_, ?_⟩
  · rw [h1, Handle_elsewhere impl grow (Handler.derivedAttrs h as) ctx r st rfl]
  · rw [h2, Handle_elsewhere impl grow (Handler.derivedGroup h name) ctx r st rfl]

/-- C9, at the handler `InitLogger` installs: under the sample traced context the
handler derived through `WithAttrs` passes the record on with its own attribute
only. -/
theorem derived_handler_not_enriched_witness :
    (SpanContextFromContext tracedCtx).IsValid = true
    ∧ ((Handler.Handle sampleImpl sampleGrow
          (InitLogger.WithAttrs [{ Key := "service", Value := Value.KindString "api" }])
          tracedCtx sampleRecord { world := 0, arrays := [], handled := [] }).2.handled.map
        (fun c => c.attrs.map (fun a => a.Key)))
      = [["user"]] :=
  ⟨by decide, by
    show ((Handler.Handle sampleImpl sampleGrow
          ((handlerWithSpanContext (Handler.sink "slog.NewJSONHandler(os.Stdout)")).WithAttrs
            [{ Key := "service", Value := Value.KindString "api" }])
          tracedCtx sampleRecord { world := 0, arrays := [], handled := [] }).2.handled.map
        (fun c => c.attrs.map (fun a => a.Key))) = [["user"]]
    rw [(derived_handler_not_enriched sampleImpl sampleGrow
      (Handler.sink "slog.NewJSONHandler(os.Stdout)")
      [{ Key := "service", Value := Value.KindString "api" }] "" tracedCtx sampleRecord
      { world := 0, arrays := [], handled := [] } rfl).2.2.1]
    rfl⟩

/-! ## logger.go: `replacer` -/

theorem replacer_other_key (groups : List String) (a : Attr) (h1 : a.Key ≠ "level")
    (h2 : a.Key ≠ "time") (h3 : a.Key ≠ "msg") : replacer groups a = Except.ok a := by
  simp [replacer, slog.LevelKey, slog.TimeKey, slog.MessageKey, h1, h2, h3]

/-- C8: `replacer` turns a `level` attribute whose value is a `slog.Level` into a
`severity` attribute, with the string `WARNING` for the warn level and the value
unchanged for any other level; it renames `time` to `timestamp` and `msg` to
`message` with the value unchanged; it returns every other attribute as it is.
Applied to an attribute it returned, under any group path, it returns that
attribute. -/
theorem replacer_renames (groups : List String) (a : Attr) :
    (∀ L : Level, a.Key = "level" → a.Value.Any = GoAny.dyn (Dyn.level L) →
        replacer groups a
          = Except.ok
              { Key := "severity"
                Value := if L = slog.LevelWarn then Value.KindString "WARNING" else a.Value })
    ∧ (a.Key = "time" → replacer groups a = Except.ok { Key := "timestamp", Value := a.Value })
    ∧ (a.Key = "msg" → replacer groups a = Except.ok { Key := "message", Value := a.Value })
    ∧ (a.Key ≠ "level" → a.Key ≠ "time" → a.Key ≠ "msg" → replacer groups a = Except.ok a)
    ∧ (∀ (groups2 : List String) (b : Attr),
        replacer groups a = Except.ok b → replacer groups2 b = Except.ok b) := by
  refine ⟨?_, ?_, ?_, replacer_other_key groups a, ?_⟩
  · intro L hk hv
    by_cases hL : L = slog.LevelWarn
    · simp [replacer, slog.LevelKey, hk, hv, GoAny.assertLevel, hL, slog.StringValue]
    · simp [replacer, slog.LevelKey, hk, hv, GoAny.assertLevel, hL]
  · intro hk
    simp [replacer, slog.LevelKey, slog.TimeKey, hk]
  · intro hk
    simp [replacer, slog.LevelKey, slog.TimeKey, slog.MessageKey, hk]
  · intro groups2 b hb
    have hkey : b.Key ≠ "level" ∧ b.Key ≠ "time" ∧ b.Key ≠ "msg" := by
      unfold replacer at hb
      simp only [slog.LevelKey, slog.TimeKey, slog.MessageKey] at hb
      split at hb
      · split at hb
        · cases hb
        · split at hb
          · cases hb
            simp
          · cases hb
            simp
      · split at hb
        · cases hb
          simp
        · split at hb
          · cases hb
            simp
          · cases hb
            simp_all
    exact replacer_other_key groups2 b hkey.1 hkey.2.1 hkey.2.2

/-- C8, at sample attributes: a warn level, an error level, and idempotence on the
renamed message attribute. -/
theorem replacer_renames_witness :
    replacer [] { Key := "level", Value := Value.KindAny (Dyn.level slog.LevelWarn) }
        = Except.ok { Key := "severity", Value := Value.KindString "WARNING" }
    ∧ replacer ["request"] { Key := "level", Value := Value.KindAny (Dyn.level slog.LevelError) }
        = Except.ok { Key := "severity", Value := Value.KindAny (Dyn.level slog.LevelError) }
    ∧ replacer [] { Key := "message", Value := Value.KindString "hello" }
        = Except.ok { Key := "message", Value := Value.KindString "hello" } :=
  ⟨(replacer_renames [] { Key := "level", Value := Value.KindAny (Dyn.level slog.LevelWarn) }).1
      slog.LevelWarn rfl rfl,
   (replacer_renames ["request"]
      { Key := "level", Value := Value.KindAny (Dyn.level slog.LevelError) }).1
      slog.LevelError rfl rfl,
   (replacer_renames [] { Key := "msg", Value := Value.KindString "hello" }).2.2.2.2 []
      { Key := "message", Value := Value.KindString "hello" }
      ((replacer_renames [] { Key := "msg", Value := Value.KindString "hello" }).2.2.1 rfl)⟩

/-- C10: on an attribute with key `level` whose value is not a `slog.Level`,
`replacer` returns no attribute: the type assertion panics. -/
theorem replacer_panics_on_non_level (groups : List String) (a : Attr)
    (hk : a.Key = "level") (hv : ∀ L : Level, a.Value.Any ≠ GoAny.dyn (Dyn.level L)) :
    replacer groups a
      = Except.error "interface conversion: the value is not a slog.Level" := by
  have hassert : a.Value.Any.assertLevel
      = Except.error "interface conversion: the value is not a slog.Level" := by
    cases hx : a.Value.Any with
    | dyn x =>
        cases x with
        | level l => exact absurd hx (hv l)
        | nil => rfl
        | traceID t => rfl
        | spanID s => rfl
        | other n t => rfl
    | bool b => rfl
    | duration d => rfl
    | float64 f => rfl
    | int64 i => rfl
    | string s => rfl
    | time t => rfl
    | uint64 n => rfl
    | attrs as => rfl
  simp [replacer, slog.LevelKey, hk, hassert]

/-- C10, at the attribute `slog.String("level", "high")`: `replacer` panics. -/
theorem replacer_panics_on_non_level_witness :
    Value.Any (Value.KindString "high") = GoAny.string "high"
    ∧ replacer [] { Key := "level", Value := Value.KindString "high" }
        = Except.error "interface conversion: the value is not a slog.Level" :=
  ⟨rfl, replacer_panics_on_non_level [] { Key := "level", Value := Value.KindString "high" } rfl
    (by intro L h; cases h)⟩

end Telemetrylib
